import Mathlib

/-!
Shallow embedding of `src/server.js` (an Express weather relay) and proofs
about its observable behaviour.

The handler for `GET /api/weather` reads `req.query.city`, validates it,
checks the `OPENWEATHER_API_KEY` credential, performs one `fetch` to the
OpenWeatherMap URL, parses the body as JSON, and either forwards a provider
error, maps the body into a seven-field summary object, or — when anything
in the `try` block throws (fetch rejection, JSON parse rejection, or a
property access on `undefined`/`null`) — responds 500 with a fixed message.

JavaScript values reachable in this program are modelled by `JsValue`;
property access that would throw a `TypeError` (access on `undefined` or
`null`) is modelled as `none`, and otherwise returns the property value,
`undefined` when absent, mirroring JavaScript object semantics.
-/

/-- JavaScript values as they occur in this program: `undefined`, `null`,
booleans, numbers (JSON numbers, modelled as rationals), strings, arrays and
objects (ordered field lists, first occurrence wins on lookup). -/
inductive JsValue where
  | undefined : JsValue
  | null : JsValue
  | bool : Bool → JsValue
  | num : Rat → JsValue
  | str : String → JsValue
  | arr : List JsValue → JsValue
  | obj : List (String × JsValue) → JsValue

/-- Field lookup in an object's field list; an absent key yields `undefined`,
as in JavaScript. -/
def lookupField : List (String × JsValue) → String → JsValue
  | [], _ => .undefined
  | (k, v) :: rest, key => if k = key then v else lookupField rest key

/-- JavaScript property access `v.key`. Accessing a property of `undefined`
or `null` throws a `TypeError` (modelled as `none`); on an object it yields
the field's value or `undefined`; on any other value it yields `undefined`
(primitives have none of the property names this program reads). -/
def JsValue.getField : JsValue → String → Option JsValue
  | .undefined, _ => none
  | .null, _ => none
  | .obj fields, key => some (lookupField fields key)
  | _, _ => some .undefined

/-- JavaScript indexing `v[i]`. Indexing into `undefined` or `null` throws
(`none`); on an array it yields the element or `undefined` when out of
range; on an object it looks up the numeric key as a string; on any other
value it yields `undefined`. -/
def JsValue.getIndex : JsValue → Nat → Option JsValue
  | .undefined, _ => none
  | .null, _ => none
  | .arr elems, i => some (elems.getD i .undefined)
  | .obj fields, i => some (lookupField fields (toString i))
  | _, _ => some .undefined

/-- JavaScript truthiness: `undefined`, `null`, `false`, `0` and `""` are
falsy; everything else reachable here is truthy. -/
def JsValue.truthy : JsValue → Bool
  | .undefined => false
  | .null => false
  | .bool b => b
  | .num q => q ≠ 0
  | .str s => s ≠ ""
  | .arr _ => true
  | .obj _ => true

/-- Truthiness of an optional query/env string: `!x` in the source is true
exactly when the value is absent or the empty string. -/
def jsStrFalsy : Option String → Bool
  | none => true
  | some s => s = ""

/-- The outbound URL built at `src/server.js:48` by template-literal
interpolation of the raw `city` and key into the fixed OpenWeatherMap
template, with no URL-encoding. -/
def openWeatherMapUrl (city apiKey : String) : String :=
  "https://api.openweathermap.org/data/2.5/weather?q=" ++ city ++
    "&appid=" ++ apiKey ++ "&units=metric"

/-- Outcome of `fetch(url)` followed by `response.json()`: the fetch promise
rejects (network failure), or a response arrives with an HTTP status and a
body that either parses to a JSON value or fails to parse (`none`, making
`response.json()` reject). -/
inductive FetchOutcome where
  | reject : FetchOutcome
  | response : Nat → Option JsValue → FetchOutcome

/-- An HTTP response emitted by the handler: a status code and a JSON body. -/
structure HttpResponse where
  status : Nat
  body : JsValue

/-- The error payload `data.message || 'Error fetching weather data from
external API'` at `src/server.js:62`: reading `message` throws when `data`
is `null` (JSON bodies never parse to `undefined`); otherwise the field's
value when truthy, else the fallback string. -/
def errorMessage (data : JsValue) : Option JsValue :=
  (data.getField "message").bind fun m =>
    some (if m.truthy then m else
      .str "Error fetching weather data from external API")

/-- The source expression `data.sys.country` (`src/server.js:69`). -/
def readCountry (data : JsValue) : Option JsValue :=
  (data.getField "sys").bind fun sysV => sysV.getField "country"

/-- The source expression `data.main.temp` (`src/server.js:70`). -/
def readTemp (data : JsValue) : Option JsValue :=
  (data.getField "main").bind fun mainV => mainV.getField "temp"

/-- The source expression `data.main.feels_like` (`src/server.js:71`). -/
def readFeelsLike (data : JsValue) : Option JsValue :=
  (data.getField "main").bind fun mainV => mainV.getField "feels_like"

/-- The source expression `data.weather[0].description` (`src/server.js:72`). -/
def readDescription (data : JsValue) : Option JsValue :=
  (data.getField "weather").bind fun weatherV =>
    (weatherV.getIndex 0).bind fun headV => headV.getField "description"

/-- The source expression `data.weather[0].icon` (`src/server.js:73`). -/
def readIcon (data : JsValue) : Option JsValue :=
  (data.getField "weather").bind fun weatherV =>
    (weatherV.getIndex 0).bind fun headV => headV.getField "icon"

/-- The source expression `data.main.humidity` (`src/server.js:74`). -/
def readHumidity (data : JsValue) : Option JsValue :=
  (data.getField "main").bind fun mainV => mainV.getField "humidity"

/-- The `weatherInfo` object literal at `src/server.js:67`-`75`, evaluating
the seven property chains in source order; `none` means some access threw a
`TypeError` (caught by the surrounding `try`). -/
def buildWeatherInfo (data : JsValue) : Option JsValue :=
  (data.getField "name").bind fun cityV =>
  (readCountry data).bind fun countryV =>
  (readTemp data).bind fun tempV =>
  (readFeelsLike data).bind fun feelsV =>
  (readDescription data).bind fun descV =>
  (readIcon data).bind fun iconV =>
  (readHumidity data).bind fun humidityV =>
  some (.obj [("city", cityV), ("country", countryV), ("temperature", tempV),
    ("feelsLike", feelsV), ("description", descV), ("icon", iconV),
    ("humidity", humidityV)])

/-- The `try`/`catch` block at `src/server.js:54`-`84`. `response.ok` in
node-fetch is `200 ≤ status < 300`; the body is parsed before the status
check, exactly as in the source. Any throw inside the `try` (fetch
rejection, parse rejection, property access on `undefined`/`null`) lands in
the `catch`, which responds 500 with a fixed message. -/
def fetchBranch (fetched : FetchOutcome) : HttpResponse :=
  let tryResult : Option HttpResponse :=
    match fetched with
    | .reject => none
    | .response status body =>
      body.bind fun data =>
        if ¬ (200 ≤ status ∧ status < 300) then
          (errorMessage data).bind fun msg =>
            some ⟨status, .obj [("error", msg)]⟩
        else
          (buildWeatherInfo data).bind fun info =>
            some ⟨200, info⟩
  match tryResult with
  | some r => r
  | none => ⟨500, .obj [("error", .str "Failed to fetch weather data.")]⟩

/-- The `GET /api/weather` handler, `src/server.js:31`-`85`. Inputs: the
configured credential, the `city` query parameter, and the provider's
behaviour as a function from the fetched URL to a fetch outcome. Output:
the HTTP response together with the list of outbound URLs actually fetched
during the invocation. -/
def handleWeather (apiKey : Option String) (city : Option String)
    (provider : String → FetchOutcome) : HttpResponse × List String :=
  if jsStrFalsy city then
    (⟨400, .obj [("error", .str "City parameter is required.")]⟩, [])
  else if jsStrFalsy apiKey then
    (⟨500, .obj [("error", .str "Server is not configured with the API key.")]⟩, [])
  else
    let url := openWeatherMapUrl (city.getD "") (apiKey.getD "")
    (fetchBranch (provider url), [url])

/-- The `GET /health` handler, `src/server.js:88`-`90`: it ignores the
credential, any query parameter and the provider, and sends plain text with
status 200. -/
def healthHandler (_apiKey : Option String) (_city : Option String)
    (_provider : String → FetchOutcome) : Nat × String :=
  (200, "Backend is healthy!")

/-- Shape test: an object with exactly the seven summary keys, in the order
the handler constructs them, with arbitrary values. -/
def isSevenFieldSummary : JsValue → Bool
  | .obj [("city", _), ("country", _), ("temperature", _), ("feelsLike", _),
      ("description", _), ("icon", _), ("humidity", _)] => true
  | _ => false

/-- Shape test: an object with exactly one key `error` whose value is a
string. -/
def isErrorStringBody : JsValue → Bool
  | .obj [("error", .str _)] => true
  | _ => false

/-- Shape test: an object with exactly one key `error` (any value). -/
def isErrorBody : JsValue → Bool
  | .obj [("error", _)] => true
  | _ => false

/-- Stub provider body: a representative well-formed OpenWeatherMap payload. -/
def stubSuccessBody : JsValue := .obj [
  ("name", .str "London"),
  ("sys", .obj [("country", .str "GB")]),
  ("main", .obj [("temp", .num 7), ("feels_like", .num 5), ("humidity", .num 81)]),
  ("weather", .arr [.obj [("description", .str "light rain"), ("icon", .str "10d")]])]

/-- Stub provider answering 200 with `stubSuccessBody` for every URL. -/
def stubSuccessProvider : String → FetchOutcome :=
  fun _ => .response 200 (some stubSuccessBody)

/-- Stub provider answering 404 with a `message` field, the spec's example. -/
def stubNotFoundProvider : String → FetchOutcome :=
  fun _ => .response 404 (some (.obj [("message", .str "city not found")]))

/-- Stub provider answering 404 with a body that fails to parse as JSON. -/
def stubMalformedProvider : String → FetchOutcome :=
  fun _ => .response 404 none

/-- Stub provider whose fetch promise rejects (network failure). -/
def stubRejectProvider : String → FetchOutcome :=
  fun _ => .reject

/-- Stub provider answering 404 with a truthy non-string `message` field. -/
def stubNumericMessageProvider : String → FetchOutcome :=
  fun _ => .response 404 (some (.obj [("message", .num 42)]))

/-- Stub provider answering 200 with a body whose `weather` list is empty. -/
def stubEmptyWeatherProvider : String → FetchOutcome :=
  fun _ => .response 200 (some (.obj [
    ("name", .str "London"),
    ("sys", .obj [("country", .str "GB")]),
    ("main", .obj [("temp", .num 7), ("feels_like", .num 5), ("humidity", .num 81)]),
    ("weather", .arr [])]))

theorem handleWeather_valid (key city : String) (hkey : key ≠ "") (hcity : city ≠ "")
    (provider : String → FetchOutcome) :
    handleWeather (some key) (some city) provider =
      (fetchBranch (provider (openWeatherMapUrl city key)), [openWeatherMapUrl city key]) := by
  simp [handleWeather, jsStrFalsy, hkey, hcity]

theorem fetchBranch_ok (status : Nat) (data info : JsValue)
    (hlo : 200 ≤ status) (hhi : status < 300)
    (hb : buildWeatherInfo data = some info) :
    fetchBranch (.response status (some data)) = ⟨200, info⟩ := by
  simp [fetchBranch, hlo, hhi, hb]

theorem fetchBranch_notok (status : Nat) (data msg : JsValue)
    (hstatus : ¬ (200 ≤ status ∧ status < 300))
    (hm : errorMessage data = some msg) :
    fetchBranch (.response status (some data)) =
      ⟨status, .obj [("error", msg)]⟩ := by
  simp [fetchBranch, hstatus, hm]

theorem fetchBranch_build_fails (status : Nat) (data : JsValue)
    (hlo : 200 ≤ status) (hhi : status < 300)
    (hb : buildWeatherInfo data = none) :
    fetchBranch (.response status (some data)) =
      ⟨500, .obj [("error", .str "Failed to fetch weather data.")]⟩ := by
  simp [fetchBranch, hlo, hhi, hb]

theorem buildWeatherInfo_obj (fs sysFs mainFs headFs : List (String × JsValue))
    (restW : List JsValue)
    (hsys : lookupField fs "sys" = .obj sysFs)
    (hmain : lookupField fs "main" = .obj mainFs)
    (hweather : lookupField fs "weather" = .arr (.obj headFs :: restW)) :
    buildWeatherInfo (.obj fs) =
      some (.obj [("city", lookupField fs "name"),
        ("country", lookupField sysFs "country"),
        ("temperature", lookupField mainFs "temp"),
        ("feelsLike", lookupField mainFs "feels_like"),
        ("description", lookupField headFs "description"),
        ("icon", lookupField headFs "icon"),
        ("humidity", lookupField mainFs "humidity")]) := by
  simp [buildWeatherInfo, readCountry, readTemp, readFeelsLike, readDescription,
    readIcon, readHumidity, JsValue.getField, JsValue.getIndex, hsys, hmain, hweather]

/-- C1: for every provider response with a 2xx status and a well-formed body
(an object with `name`, an object `sys` containing `country`, an object
`main` containing `temp`, `feels_like` and `humidity`, and a `weather` list
whose first entry exists and is an object), the handler answers 200 with a
summary whose seven fields are exactly the provider's `name`, `sys.country`,
`main.temp`, `main.feels_like`, `weather[0].description`, `weather[0].icon`
and `main.humidity`, unmodified. -/
theorem weather_success_round_trip
    (key city : String) (hkey : key ≠ "") (hcity : city ≠ "")
    (provider : String → FetchOutcome) (status : Nat)
    (hlo : 200 ≤ status) (hhi : status ≤ 299)
    (fs sysFs mainFs headFs : List (String × JsValue)) (restW : List JsValue)
    (hresp : provider (openWeatherMapUrl city key) =
      .response status (some (.obj fs)))
    (hsys : lookupField fs "sys" = .obj sysFs)
    (hmain : lookupField fs "main" = .obj mainFs)
    (hweather : lookupField fs "weather" = .arr (.obj headFs :: restW))
    (_hname : lookupField fs "name" ≠ .undefined)
    (_hcountry : lookupField sysFs "country" ≠ .undefined)
    (_htemp : lookupField mainFs "temp" ≠ .undefined)
    (_hfeels : lookupField mainFs "feels_like" ≠ .undefined)
    (_hhumidity : lookupField mainFs "humidity" ≠ .undefined) :
    handleWeather (some key) (some city) provider =
      (⟨200, .obj [("city", lookupField fs "name"),
        ("country", lookupField sysFs "country"),
        ("temperature", lookupField mainFs "temp"),
        ("feelsLike", lookupField mainFs "feels_like"),
        ("description", lookupField headFs "description"),
        ("icon", lookupField headFs "icon"),
        ("humidity", lookupField mainFs "humidity")]⟩,
       [openWeatherMapUrl city key]) := by
  rw [handleWeather_valid key city hkey hcity provider, hresp,
    fetchBranch_ok status (.obj fs) _ hlo (by omega)
      (buildWeatherInfo_obj fs sysFs mainFs headFs restW hsys hmain hweather)]

/-- Witness for C1: the representative stub provider body round-trips. -/
theorem weather_success_round_trip_witness :
    handleWeather (some "testkey") (some "London") stubSuccessProvider =
      (⟨200, .obj [("city", .str "London"), ("country", .str "GB"),
        ("temperature", .num 7), ("feelsLike", .num 5),
        ("description", .str "light rain"), ("icon", .str "10d"),
        ("humidity", .num 81)]⟩,
       ["https://api.openweathermap.org/data/2.5/weather?q=London&appid=testkey&units=metric"]) := by
  exact weather_success_round_trip "testkey" "London" (by decide) (by decide)
    stubSuccessProvider 200 (by decide) (by decide)
    [("name", .str "London"),
     ("sys", .obj [("country", .str "GB")]),
     ("main", .obj [("temp", .num 7), ("feels_like", .num 5), ("humidity", .num 81)]),
     ("weather", .arr [.obj [("description", .str "light rain"), ("icon", .str "10d")]])]
    [("country", .str "GB")]
    [("temp", .num 7), ("feels_like", .num 5), ("humidity", .num 81)]
    [("description", .str "light rain"), ("icon", .str "10d")] []
    rfl rfl rfl rfl (by simp [lookupField]) (by simp [lookupField])
    (by simp [lookupField]) (by simp [lookupField]) (by simp [lookupField])

/-- C2: when the `city` query parameter is absent or empty, the handler
answers 400 with the fixed error body and fetches nothing, whatever the
credential and the provider. -/
theorem missing_city_rejected (apiKey city : Option String)
    (provider : String → FetchOutcome)
    (h : city = none ∨ city = some "") :
    handleWeather apiKey city provider =
      (⟨400, .obj [("error", .str "City parameter is required.")]⟩, []) := by
  rcases h with h | h <;> subst h <;> rfl

/-- Witness for C2: absent city with an unset key and a live stub provider. -/
theorem missing_city_rejected_witness :
    handleWeather none none stubSuccessProvider =
      (⟨400, .obj [("error", .str "City parameter is required.")]⟩, []) :=
  missing_city_rejected none none stubSuccessProvider (Or.inl rfl)

/-- Counterexample to C3 as stated: with the key unset and `city` equal to
the empty string (a city value), the handler answers 400, not 500 with the
misconfiguration message — the city validation at `src/server.js:36` runs
before the key check at `src/server.js:42`. -/
theorem unset_key_counterexample :
    (handleWeather none (some "") stubSuccessProvider).1.status = 400 ∧
    ¬ (handleWeather none (some "") stubSuccessProvider).1.status = 500 := by
  constructor
  · rfl
  · intro h
    simp [handleWeather, jsStrFalsy] at h

/-- C3 amended: if the key is unset, every lookup request with a non-empty
`city` answers 500 with the misconfiguration message and fetches nothing;
requests without a usable `city` are instead rejected with 400 first. -/
theorem unset_key_misconfigured (city : String) (hcity : city ≠ "")
    (provider : String → FetchOutcome) :
    handleWeather none (some city) provider =
      (⟨500, .obj [("error", .str "Server is not configured with the API key.")]⟩,
       []) := by
  simp [handleWeather, jsStrFalsy, hcity]

/-- Witness for amended C3: key unset, city "Paris", live stub provider. -/
theorem unset_key_misconfigured_witness :
    handleWeather none (some "Paris") stubSuccessProvider =
      (⟨500, .obj [("error", .str "Server is not configured with the API key.")]⟩,
       []) :=
  unset_key_misconfigured "Paris" (by decide) stubSuccessProvider

/-- Counterexample to C4 as stated: a provider response with status 404
whose body fails to parse as JSON makes `response.json()` reject, so the
handler answers 500 (the catch block), not the provider's 404. -/
theorem upstream_error_unparseable_counterexample :
    (handleWeather (some "k") (some "London") stubMalformedProvider).1.status = 500 ∧
    ¬ (handleWeather (some "k") (some "London") stubMalformedProvider).1.status = 404 := by
  constructor
  · rfl
  · intro h
    rw [handleWeather_valid "k" "London" (by decide) (by decide)
      stubMalformedProvider] at h
    simp [stubMalformedProvider, fetchBranch] at h

/-- C4 amended: for every provider response with a non-2xx status whose body
parses as JSON to a value on which reading `message` does not throw (any
parsed value other than `null`), the handler forwards the provider's status
with body `error` set to the `message` field when present and truthy, else
the fallback string; an unparseable (or `null`) body lands in the catch
block instead and yields 500 with the transport-failure message. -/
theorem upstream_error_passthrough
    (key city : String) (hkey : key ≠ "") (hcity : city ≠ "")
    (provider : String → FetchOutcome) (status : Nat) (data msgV : JsValue)
    (hstatus : ¬ (200 ≤ status ∧ status ≤ 299))
    (hresp : provider (openWeatherMapUrl city key) = .response status (some data))
    (hmsg : data.getField "message" = some msgV) :
    handleWeather (some key) (some city) provider =
      (⟨status, .obj [("error",
        if msgV.truthy then msgV
        else .str "Error fetching weather data from external API")]⟩,
       [openWeatherMapUrl city key]) := by
  have hm : errorMessage data =
      some (if msgV.truthy then msgV
        else .str "Error fetching weather data from external API") := by
    rw [errorMessage, hmsg]
    rfl
  rw [handleWeather_valid key city hkey hcity provider, hresp,
    fetchBranch_notok status data
      (if msgV.truthy then msgV
        else .str "Error fetching weather data from external API")
      (by omega) hm]

/-- Witness for amended C4: the spec's own example, 404 with message
"city not found" forwarded as 404 with that error. -/
theorem upstream_error_passthrough_witness :
    handleWeather (some "k") (some "London") stubNotFoundProvider =
      (⟨404, .obj [("error", .str "city not found")]⟩,
       ["https://api.openweathermap.org/data/2.5/weather?q=London&appid=k&units=metric"]) := by
  exact upstream_error_passthrough "k" "London" (by decide) (by decide)
    stubNotFoundProvider 404 (.obj [("message", .str "city not found")])
    (.str "city not found") (by omega) rfl rfl

/-- C5: whenever the invocation reaches the outbound call (non-empty city,
configured key) and the fetch rejects or its body cannot be parsed as JSON,
the handler answers 500 with the transport-failure message. -/
theorem transport_failure_500
    (key city : String) (hkey : key ≠ "") (hcity : city ≠ "")
    (provider : String → FetchOutcome)
    (h : provider (openWeatherMapUrl city key) = .reject ∨
      ∃ status, provider (openWeatherMapUrl city key) = .response status none) :
    handleWeather (some key) (some city) provider =
      (⟨500, .obj [("error", .str "Failed to fetch weather data.")]⟩,
       [openWeatherMapUrl city key]) := by
  rw [handleWeather_valid key city hkey hcity provider]
  rcases h with h | ⟨status, h⟩ <;> rw [h] <;> rfl

/-- Witness for C5: a rejecting stub provider yields the 500 transport
failure response. -/
theorem transport_failure_500_witness :
    handleWeather (some "k") (some "London") stubRejectProvider =
      (⟨500, .obj [("error", .str "Failed to fetch weather data.")]⟩,
       ["https://api.openweathermap.org/data/2.5/weather?q=London&appid=k&units=metric"]) :=
  transport_failure_500 "k" "London" (by decide) (by decide) stubRejectProvider
    (Or.inl rfl)

/-- C6: `/health` answers 200 with the fixed plain-text body whatever the
credential, the query and the provider state. -/
theorem health_always_ok (apiKey city : Option String)
    (provider : String → FetchOutcome) :
    healthHandler apiKey city provider = (200, "Backend is healthy!") := rfl

theorem fetchBranch_message_fails (status : Nat) (data : JsValue)
    (hstatus : ¬ (200 ≤ status ∧ status < 300))
    (hm : errorMessage data = none) :
    fetchBranch (.response status (some data)) =
      ⟨500, .obj [("error", .str "Failed to fetch weather data.")]⟩ := by
  simp [fetchBranch, hstatus, hm]

theorem buildWeatherInfo_shape (data info : JsValue)
    (h : buildWeatherInfo data = some info) :
    isSevenFieldSummary info = true := by
  simp only [buildWeatherInfo, Option.bind_eq_some, Option.some.injEq] at h
  obtain ⟨c, -, co, -, t, -, fe, -, de, -, ic, -, hu, -, hinfo⟩ := h
  subst hinfo
  rfl

theorem fetchBranch_shape (fetched : FetchOutcome) :
    ((fetchBranch fetched).status = 200 ∧
      isSevenFieldSummary (fetchBranch fetched).body = true) ∨
    ((fetchBranch fetched).status ≠ 200 ∧
      isErrorBody (fetchBranch fetched).body = true) := by
  cases fetched with
  | reject => exact Or.inr ⟨by decide, rfl⟩
  | response status body =>
    cases body with
    | none =>
      refine Or.inr ⟨?_, rfl⟩
      show (500 : Nat) ≠ 200
      decide
    | some data =>
      by_cases hok : 200 ≤ status ∧ status < 300
      · cases hb : buildWeatherInfo data with
        | none =>
          rw [fetchBranch_build_fails status data hok.1 hok.2 hb]
          exact Or.inr ⟨by decide, rfl⟩
        | some info =>
          rw [fetchBranch_ok status data info hok.1 hok.2 hb]
          exact Or.inl ⟨rfl, buildWeatherInfo_shape data info hb⟩
      · cases hm : errorMessage data with
        | none =>
          rw [fetchBranch_message_fails status data hok hm]
          exact Or.inr ⟨by decide, rfl⟩
        | some m =>
          rw [fetchBranch_notok status data m hok hm]
          refine Or.inr ⟨?_, rfl⟩
          show status ≠ 200
          omega

theorem buildWeatherInfo_weather_empty (data : JsValue)
    (hw : data.getField "weather" = some .undefined ∨
      data.getField "weather" = some (.arr [])) :
    buildWeatherInfo data = none := by
  have hdesc : readDescription data = none := by
    rcases hw with hw | hw <;> simp only [readDescription] <;> rw [hw] <;>
      simp [JsValue.getIndex, JsValue.getField, List.getD]
  have hname : ∃ v, data.getField "name" = some v := by
    cases data <;> simp_all [JsValue.getField]
  obtain ⟨nv, hn⟩ := hname
  rcases hco : readCountry data with _ | cv <;>
    rcases hte : readTemp data with _ | tv <;>
      rcases hfe : readFeelsLike data with _ | fv <;>
        simp [buildWeatherInfo, hn, hco, hte, hfe, hdesc]

/-- C7: every invocation fetches at most once, and exactly once when the
`city` parameter passes the source's truthiness check (present and
non-empty) and the credential does too; no path retries or fetches twice. -/
theorem single_outbound_call (apiKey city : Option String)
    (provider : String → FetchOutcome) :
    (handleWeather apiKey city provider).2.length ≤ 1 ∧
    (jsStrFalsy city = false → jsStrFalsy apiKey = false →
      (handleWeather apiKey city provider).2.length = 1) := by
  unfold handleWeather
  cases hc : jsStrFalsy city <;> cases hk : jsStrFalsy apiKey <;> simp [hc, hk]

/-- Witness for C7: a valid request against the success stub fetches exactly
once. -/
theorem single_outbound_call_witness :
    (handleWeather (some "k") (some "London") stubSuccessProvider).2.length = 1 :=
  (single_outbound_call (some "k") (some "London") stubSuccessProvider).2 rfl rfl

/-- Counterexample to C8 as stated: a 404 provider body whose `message` is
the number 42 is forwarded as `error` 42 — an error response whose body is
not of shape error-string. -/
theorem summary_or_string_error_counterexample :
    (handleWeather (some "k") (some "London") stubNumericMessageProvider).1.status = 404 ∧
    ¬ (handleWeather (some "k") (some "London") stubNumericMessageProvider).1.status = 200 ∧
    isErrorStringBody
      (handleWeather (some "k") (some "London") stubNumericMessageProvider).1.body = false :=
  ⟨rfl, by decide, rfl⟩

/-- C8 amended: every invocation, whatever the input and provider behaviour,
yields either status 200 with an object of exactly the seven summary keys
(values possibly `undefined` when the provider omits them) or a non-200
status with an object of exactly one key `error` (its value the provider's
truthy `message` — not necessarily a string — or one of the fixed strings);
nothing escapes the handler uncaught. -/
theorem response_shape_invariant (apiKey city : Option String)
    (provider : String → FetchOutcome) :
    ((handleWeather apiKey city provider).1.status = 200 ∧
      isSevenFieldSummary (handleWeather apiKey city provider).1.body = true) ∨
    ((handleWeather apiKey city provider).1.status ≠ 200 ∧
      isErrorBody (handleWeather apiKey city provider).1.body = true) := by
  unfold handleWeather
  cases hc : jsStrFalsy city
  · cases hk : jsStrFalsy apiKey
    · simpa [hc, hk] using fetchBranch_shape (provider (openWeatherMapUrl
        ((city.getD "")) ((apiKey.getD ""))))
    · simp [hc, hk, isErrorBody]
  · simp [hc, isErrorBody]

/-- C9: a 2xx provider response whose parsed body has an absent or empty
`weather` list makes the `weather[0]` access throw inside the `try`; the
catch answers 500 with the transport-failure message, indistinguishable
from a network failure. -/
theorem empty_weather_list_caught
    (key city : String) (hkey : key ≠ "") (hcity : city ≠ "")
    (provider : String → FetchOutcome) (status : Nat) (data : JsValue)
    (hlo : 200 ≤ status) (hhi : status ≤ 299)
    (hresp : provider (openWeatherMapUrl city key) = .response status (some data))
    (hw : data.getField "weather" = some .undefined ∨
      data.getField "weather" = some (.arr [])) :
    handleWeather (some key) (some city) provider =
      (⟨500, .obj [("error", .str "Failed to fetch weather data.")]⟩,
       [openWeatherMapUrl city key]) := by
  rw [handleWeather_valid key city hkey hcity provider, hresp,
    fetchBranch_build_fails status data hlo (by omega)
      (buildWeatherInfo_weather_empty data hw)]

/-- Witness for C9: a 200 body that is well-formed except for an empty
`weather` array yields the 500 transport-failure response. -/
theorem empty_weather_list_caught_witness :
    handleWeather (some "k") (some "London") stubEmptyWeatherProvider =
      (⟨500, .obj [("error", .str "Failed to fetch weather data.")]⟩,
       ["https://api.openweathermap.org/data/2.5/weather?q=London&appid=k&units=metric"]) :=
  empty_weather_list_caught "k" "London" (by decide) (by decide)
    stubEmptyWeatherProvider 200
    (.obj [("name", .str "London"),
      ("sys", .obj [("country", .str "GB")]),
      ("main", .obj [("temp", .num 7), ("feels_like", .num 5), ("humidity", .num 81)]),
      ("weather", .arr [])])
    (by decide) (by decide) rfl (Or.inr rfl)

/-- C10: the outbound URL is the raw city and key interpolated verbatim into
the fixed template, with no URL-encoding, so distinct city/key pairs can
collide into the same URL when the city contains query metacharacters. -/
theorem url_interpolated_verbatim :
    (∀ (city key : String), city ≠ "" → key ≠ "" →
      ∀ provider : String → FetchOutcome,
        (handleWeather (some key) (some city) provider).2 =
          ["https://api.openweathermap.org/data/2.5/weather?q=" ++ city ++
            "&appid=" ++ key ++ "&units=metric"]) ∧
    openWeatherMapUrl "London&appid=A" "B" =
      openWeatherMapUrl "London" "A&appid=B" := by
  constructor
  · intro city key hcity hkey provider
    rw [handleWeather_valid key city hkey hcity provider]
    rfl
  · rfl

/-- Witness for C10: a city containing a space is sent verbatim, unencoded. -/
theorem url_interpolated_verbatim_witness :
    (handleWeather (some "secret") (some "New York") stubRejectProvider).2 =
      ["https://api.openweathermap.org/data/2.5/weather?q=New York&appid=secret&units=metric"] :=
  url_interpolated_verbatim.1 "New York" "secret" (by decide) (by decide)
    stubRejectProvider
